import Mathlib

/-!
Verification of the sangu-bri direct-debit SDK core (Go) against its
natural-language specification, via a shallow embedding in Lean 4.

The embedding models:
* the transport layer (`ExecuteRequest` in the unnamed client file),
* the mutable endpoint-path table and `DirectDebitHostUseSandboxPrefix`,
* the operation facade in `direct_debit.go`
  (`CreateCardTokenOTP`, `CreateCardTokenOTPVerify`,
   `CreatePaymentChargeOTP`, `CreatePaymentChargeOTPVerify`).

External effects (the HTTP round trip, `json.Marshal` / `json.Unmarshal`,
the clock, the HMAC signer) are passed in as explicit parameters, so each
Go function becomes a pure Lean function of its inputs plus the outcomes
of those effects.
-/

namespace Bri

/-- A Go `error` value.  `msg s` models `errors.New s`;
`pendingTransaction` models the distinguished sentinel value
`ErrPendingTransaction` (declared outside the transport file), whose
identity, not message, is what callers compare against. -/
inductive GoError where
  | msg : String → GoError
  | pendingTransaction : GoError
deriving DecidableEq, Repr

/-- Modelled from the spec: the sentinel `PendingTransaction` error surfaced
when a `200 OK` body fails success decoding; its declaration is not among
the provided source files, only its use in `ExecuteRequest`. -/
def ErrPendingTransaction : GoError := GoError.pendingTransaction

/-- The part of `*http.Response` that `ExecuteRequest` inspects. -/
structure Response where
  statusCode : Nat
deriving DecidableEq, Repr

/-- What a call to `ExecuteRequest` produces, together with the decode
attempts it made: `err` is the function's return value (`none` = Go `nil`),
`decodedV` / `decodedVErr` record whether `json.Unmarshal` was invoked on
the success sink `v` / the error sink `vErr`. -/
structure ExecResult where
  err : Option GoError
  decodedV : Bool
  decodedVErr : Bool
deriving DecidableEq, Repr

/-- Shallow embedding of `(c *Client) ExecuteRequest`.

Effect outcomes are inputs: `doResult` is the outcome of
`c.getHTTPClient().Do(req)`, `readAll` the outcome of
`ioutil.ReadAll(res.Body)`.  The sinks `v`, `vErr` are Go interface values;
`vPresent` / `vErrPresent` model their nil checks, and
`unmarshalV` / `unmarshalVErr` give the error returned by
`json.Unmarshal(resBody, ·)` on each sink (`none` = decoding succeeded).
The redundant `if err != nil` re-check that follows
`defer res.Body.Close()` is kept literally: there `err` is the (nil) error
of the successful `Do`. -/
def ExecuteRequest (doResult : Except GoError Response)
    (readAll : Except GoError String)
    (vPresent : Bool) (unmarshalV : String → Option GoError)
    (vErrPresent : Bool) (unmarshalVErr : String → Option GoError) :
    ExecResult :=
  match doResult with
  | .error e => ⟨some e, false, false⟩
  | .ok res =>
    let err : Option GoError := none
    if err.isSome then ⟨err, false, false⟩
    else
      match readAll with
      | .error e => ⟨some e, false, false⟩
      | .ok resBody =>
        if res.statusCode = 404 then
          ⟨some (GoError.msg "invalid url"), false, false⟩
        else if res.statusCode = 204 then
          ⟨some (GoError.msg "204: empty response"), false, false⟩
        else if vPresent then
          match unmarshalV resBody with
          | some e =>
            let err := if vErrPresent then unmarshalVErr resBody else some e
            if res.statusCode = 200 then
              ⟨some ErrPendingTransaction, true, vErrPresent⟩
            else
              ⟨err, true, vErrPresent⟩
          | none => ⟨none, true, false⟩
        else ⟨none, false, false⟩

/-- `ExecuteRequest` with the redundant post-`defer` `err` re-check
removed, otherwise identical; used to show the re-check has no effect. -/
def ExecuteRequestNoRecheck (doResult : Except GoError Response)
    (readAll : Except GoError String)
    (vPresent : Bool) (unmarshalV : String → Option GoError)
    (vErrPresent : Bool) (unmarshalVErr : String → Option GoError) :
    ExecResult :=
  match doResult with
  | .error e => ⟨some e, false, false⟩
  | .ok res =>
    match readAll with
    | .error e => ⟨some e, false, false⟩
    | .ok resBody =>
      if res.statusCode = 404 then
        ⟨some (GoError.msg "invalid url"), false, false⟩
      else if res.statusCode = 204 then
        ⟨some (GoError.msg "204: empty response"), false, false⟩
      else if vPresent then
        match unmarshalV resBody with
        | some e =>
          let err := if vErrPresent then unmarshalVErr resBody else some e
          if res.statusCode = 200 then
            ⟨some ErrPendingTransaction, true, vErrPresent⟩
          else
            ⟨err, true, vErrPresent⟩
        | none => ⟨none, true, false⟩
      else ⟨none, false, false⟩

/-- The seven package-level endpoint path variables that
`DirectDebitHostUseSandboxPrefix` rewrites, gathered into one state
record (they are mutable globals in the Go source). -/
structure Paths where
  urlCreateCardTokenOTP : String
  urlCreateCardTokenOTPVerify : String
  urlDeleteCardToken : String
  urlCreatePaymentChargeOTP : String
  urlCreatePaymentChargeOTPVerify : String
  urlChargeDetail : String
  urlRefundDirectDebit : String
deriving DecidableEq, Repr

/-- Initial value of `urlCreateCardTokenOTP` (the `const` block in
`direct_debit.go`). -/
def urlCreateCardTokenOTP : String := "/v1/directdebit/tokens"

/-- Initial value of `urlCreateCardTokenOTPVerify`. -/
def urlCreateCardTokenOTPVerify : String := "/v1/directdebit/tokens"

/-- Initial value of `urlCreatePaymentChargeOTP`. -/
def urlCreatePaymentChargeOTP : String := "/v1/directdebit/charges"

/-- Initial value of `urlCreatePaymentChargeOTPVerify`. -/
def urlCreatePaymentChargeOTPVerify : String := "/v1/directdebit/charges/verify"

/-- The initial endpoint table before any toggle.  The facade entries come
from the `const` block in `direct_debit.go`; the initial values of
`urlDeleteCardToken`, `urlChargeDetail` and `urlRefundDirectDebit` are
declared outside the provided sources, so they stay parameters here (no
facade operation in `direct_debit.go` reads them). -/
def initPaths (deleteCardToken chargeDetail refundDirectDebit : String) :
    Paths :=
  ⟨urlCreateCardTokenOTP, urlCreateCardTokenOTPVerify, deleteCardToken,
   urlCreatePaymentChargeOTP, urlCreatePaymentChargeOTPVerify,
   chargeDetail, refundDirectDebit⟩

/-- Shallow embedding of `(c *Client) DirectDebitHostUseSandboxPrefix`:
rewrites all seven endpoint variables in one step, ignoring their previous
values. -/
def DirectDebitHostUseSandboxPrefix (use : Bool) (_p : Paths) : Paths :=
  if use then
    ⟨"/sandbox/v1/directdebit/tokens",
     "/sandbox/v1/directdebit/tokens",
     "/sandbox/v1/directdebit/tokens",
     "/sandbox/v1/directdebit/charges",
     "/sandbox/v1/directdebit/charges/verify",
     "/sandbox/v1/directdebit/charges/inquiry",
     "/sandbox/v1/directdebit/refunds"⟩
  else
    ⟨"/v1/rt-directdebit/tokens",
     "/v1/rt-directdebit/tokens",
     "/v1/rt-directdebit/tokens",
     "/v1/rt-directdebit/charges",
     "/v1/rt-directdebit/charges/verify",
     "/v1/rt-directdebit/charges/inquiry",
     "/v1/rt-directdebit/refunds"⟩

/-- The `Client` configuration record (fields the embedding needs;
`Timeout` and `Logger` are runtime handles with no bearing on the claims). -/
structure Client where
  BaseUrl : String
  DirectDebitBaseURL : String
  ClientId : String
  ClientSecret : String
  APIKey : String
  LogLevel : Nat
  IsProduction : Bool
deriving DecidableEq, Repr

/-- Modelled from the spec: the `CoreGateway` receiver of the facade
operations is declared outside the provided sources; per the spec it
carries the client configuration, read as `g.Client.ClientSecret`. -/
structure CoreGateway where
  Client : Client
deriving DecidableEq, Repr

/-- Modelled from the spec: the typed `CardTokenOTPRequest` record is
declared outside the provided sources; per the spec it nests its payload
under a `Body` field, and the only field the facade touches is
`Body.OtpBriStatus`. -/
structure CardTokenOTPBody where
  OtpBriStatus : String
deriving DecidableEq, Repr

/-- Modelled from the spec: see `CardTokenOTPBody`. -/
structure CardTokenOTPRequest where
  Body : CardTokenOTPBody
deriving DecidableEq, Repr

/-- The request a facade operation hands to `g.Call`: method, path,
header assignments in source order, and body string. -/
structure SentRequest where
  method : String
  path : String
  headers : List (String × String)
  body : String
deriving DecidableEq, Repr

set_option linter.unusedVariables false

/-- Shallow embedding of `(g *CoreGateway) CreateCardTokenOTP`.
`sign` is `generateSignature` (defined in an adjacent file, so kept
abstract), `timestamp` the value `getTimestamp(BRI_TIME_FORMAT)` returned,
`marshal` the outcome of `json.Marshal` on this record type (`.error`
yields a nil byte slice, hence body `""`), `call` the error `g.Call`
returns for the assembled request.  The result is the record passed to
`json.Marshal`, the request handed to `Call`, and the returned error:
the `err` from `json.Marshal` is overwritten by the `err` from `Call`,
exactly as in the source. -/
def CreateCardTokenOTP
    (sign : String → String → String → String → String → String → String)
    (timestamp : String)
    (marshal : CardTokenOTPRequest → Except GoError String)
    (call : SentRequest → Option GoError)
    (paths : Paths) (g : CoreGateway)
    (token : String) (req : CardTokenOTPRequest) :
    CardTokenOTPRequest × SentRequest × Option GoError :=
  let req := { req with Body := { req.Body with OtpBriStatus := "YES" } }
  let token := "Bearer " ++ token
  let method := "POST"
  let err : Option GoError :=
    match marshal req with | .ok _ => none | .error e => some e
  let body : String :=
    match marshal req with | .ok s => s | .error _ => ""
  let signature := sign paths.urlCreateCardTokenOTP method token timestamp
    body g.Client.ClientSecret
  let headers := [("Authorization", token), ("BRI-Timestamp", timestamp),
    ("BRI-Signature", signature), ("Content-Type", "application/json")]
  let sent : SentRequest := ⟨method, paths.urlCreateCardTokenOTP, headers, body⟩
  let err := call sent
  (req, sent, err)

/-- Shallow embedding of `(g *CoreGateway) CreateCardTokenOTPVerify`;
the request record type is opaque here (only marshalled), so it is a type
parameter. -/
def CreateCardTokenOTPVerify {ρ : Type}
    (sign : String → String → String → String → String → String → String)
    (timestamp : String)
    (marshal : ρ → Except GoError String)
    (call : SentRequest → Option GoError)
    (paths : Paths) (g : CoreGateway)
    (token : String) (req : ρ) :
    SentRequest × Option GoError :=
  let token := "Bearer " ++ token
  let method := "PATCH"
  let err : Option GoError :=
    match marshal req with | .ok _ => none | .error e => some e
  let body : String :=
    match marshal req with | .ok s => s | .error _ => ""
  let signature := sign paths.urlCreateCardTokenOTPVerify method token
    timestamp body g.Client.ClientSecret
  let headers := [("Authorization", token), ("BRI-Timestamp", timestamp),
    ("BRI-Signature", signature), ("Content-Type", "application/json")]
  let sent : SentRequest :=
    ⟨method, paths.urlCreateCardTokenOTPVerify, headers, body⟩
  let err := call sent
  (sent, err)

/-- Shallow embedding of `(g *CoreGateway) CreatePaymentChargeOTP`. -/
def CreatePaymentChargeOTP {ρ : Type}
    (sign : String → String → String → String → String → String → String)
    (timestamp : String)
    (marshal : ρ → Except GoError String)
    (call : SentRequest → Option GoError)
    (paths : Paths) (g : CoreGateway)
    (token : String) (req : ρ) :
    SentRequest × Option GoError :=
  let token := "Bearer " ++ token
  let method := "POST"
  let err : Option GoError :=
    match marshal req with | .ok _ => none | .error e => some e
  let body : String :=
    match marshal req with | .ok s => s | .error _ => ""
  let signature := sign paths.urlCreatePaymentChargeOTP method token
    timestamp body g.Client.ClientSecret
  let headers := [("Authorization", token), ("BRI-Timestamp", timestamp),
    ("BRI-Signature", signature), ("Content-Type", "application/json")]
  let sent : SentRequest :=
    ⟨method, paths.urlCreatePaymentChargeOTP, headers, body⟩
  let err := call sent
  (sent, err)

/-- Shallow embedding of `(g *CoreGateway) CreatePaymentChargeOTPVerify`. -/
def CreatePaymentChargeOTPVerify {ρ : Type}
    (sign : String → String → String → String → String → String → String)
    (timestamp : String)
    (marshal : ρ → Except GoError String)
    (call : SentRequest → Option GoError)
    (paths : Paths) (g : CoreGateway)
    (token : String) (req : ρ) :
    SentRequest × Option GoError :=
  let token := "Bearer " ++ token
  let method := "POST"
  let err : Option GoError :=
    match marshal req with | .ok _ => none | .error e => some e
  let body : String :=
    match marshal req with | .ok s => s | .error _ => ""
  let signature := sign paths.urlCreatePaymentChargeOTPVerify method token
    timestamp body g.Client.ClientSecret
  let headers := [("Authorization", token), ("BRI-Timestamp", timestamp),
    ("BRI-Signature", signature), ("Content-Type", "application/json")]
  let sent : SentRequest :=
    ⟨method, paths.urlCreatePaymentChargeOTPVerify, headers, body⟩
  let err := call sent
  (sent, err)

/-- Claim C10: the second `err != nil` check in `ExecuteRequest`, placed
right after `defer res.Body.Close()`, is dead: at that point `err` is the
nil error of the successful `Do`, so dropping the branch leaves the
function's result unchanged on every input. -/
theorem executeRequest_recheck_redundant
    (doResult : Except GoError Response) (readAll : Except GoError String)
    (vPresent : Bool) (unmarshalV : String → Option GoError)
    (vErrPresent : Bool) (unmarshalVErr : String → Option GoError) :
    ExecuteRequest doResult readAll vPresent unmarshalV
      vErrPresent unmarshalVErr =
    ExecuteRequestNoRecheck doResult readAll vPresent unmarshalV
      vErrPresent unmarshalVErr := by
  cases doResult <;> rfl

/-- Claim C5: when the HTTP round trip and the body read succeed and the
response status is 404, `ExecuteRequest` returns an error whose message is
exactly "invalid url" and never attempts to decode the body into the
success sink or the error sink. -/
theorem executeRequest_404_invalid_url
    (res : Response) (resBody : String)
    (vPresent : Bool) (unmarshalV : String → Option GoError)
    (vErrPresent : Bool) (unmarshalVErr : String → Option GoError)
    (h404 : res.statusCode = 404) :
    ExecuteRequest (.ok res) (.ok resBody) vPresent unmarshalV
      vErrPresent unmarshalVErr =
    ⟨some (GoError.msg "invalid url"), false, false⟩ := by
  simp [ExecuteRequest, h404]

/-- Closed instance of `executeRequest_404_invalid_url` at a concrete
404 response. -/
theorem executeRequest_404_invalid_url_witness :
    ExecuteRequest (.ok ⟨404⟩) (.ok "oops") true (fun _ => none)
      true (fun _ => none) =
    ⟨some (GoError.msg "invalid url"), false, false⟩ :=
  executeRequest_404_invalid_url ⟨404⟩ "oops" true (fun _ => none)
    true (fun _ => none) rfl

/-- Claim C2: when the success sink is non-nil, the status is 200 and
success decoding fails, `ExecuteRequest` returns the sentinel
`ErrPendingTransaction`, whatever the error sink and its decode outcome. -/
theorem executeRequest_200_decode_failure_pending
    (res : Response) (resBody : String)
    (unmarshalV : String → Option GoError)
    (vErrPresent : Bool) (unmarshalVErr : String → Option GoError)
    (e : GoError)
    (h200 : res.statusCode = 200) (hfail : unmarshalV resBody = some e) :
    (ExecuteRequest (.ok res) (.ok resBody) true unmarshalV
      vErrPresent unmarshalVErr).err = some ErrPendingTransaction := by
  simp [ExecuteRequest, h200, hfail]

/-- Closed instance of `executeRequest_200_decode_failure_pending` at a
concrete 200 response whose body fails success decoding but decodes into
the error sink. -/
theorem executeRequest_200_decode_failure_pending_witness :
    (ExecuteRequest (.ok ⟨200⟩) (.ok "pendingFlag") true
      (fun _ => some (GoError.msg "json: cannot unmarshal"))
      true (fun _ => none)).err = some ErrPendingTransaction :=
  executeRequest_200_decode_failure_pending ⟨200⟩ "pendingFlag"
    (fun _ => some (GoError.msg "json: cannot unmarshal"))
    true (fun _ => none) (GoError.msg "json: cannot unmarshal") rfl rfl

/-- Claim C1, counterexample: with both sinks non-nil, a 400 response (so
neither 404 nor 204) whose body fails success decoding but decodes into the
error sink makes `ExecuteRequest` return nil — not a non-nil error as the
claim states.  The error sink was decoded (`decodedVErr = true`) yet
`err = none`. -/
theorem executeRequest_error_sink_success_returns_nil :
    ExecuteRequest (.ok ⟨400⟩) (.ok "errorCode:E01") true
      (fun _ => some (GoError.msg "json: cannot unmarshal"))
      true (fun _ => none) =
    ⟨none, true, true⟩ := rfl

/-- Claim C1, amended: with both sinks non-nil, status neither 404 nor 204
and success decoding failing, the body is decoded into the error sink; the
call returns `ErrPendingTransaction` when the status is 200, and otherwise
returns the error-sink decode result — nil exactly when that decode
succeeded. -/
theorem executeRequest_success_decode_failure_uses_error_sink
    (res : Response) (resBody : String)
    (unmarshalV unmarshalVErr : String → Option GoError) (e : GoError)
    (h404 : res.statusCode ≠ 404) (h204 : res.statusCode ≠ 204)
    (hfail : unmarshalV resBody = some e) :
    (ExecuteRequest (.ok res) (.ok resBody) true unmarshalV
      true unmarshalVErr).decodedVErr = true ∧
    (ExecuteRequest (.ok res) (.ok resBody) true unmarshalV
      true unmarshalVErr).err =
      (if res.statusCode = 200 then some ErrPendingTransaction
       else unmarshalVErr resBody) := by
  have hrun : ExecuteRequest (.ok res) (.ok resBody) true unmarshalV
      true unmarshalVErr =
      ⟨if res.statusCode = 200 then some ErrPendingTransaction
        else unmarshalVErr resBody, true, true⟩ := by
    simp [ExecuteRequest, hfail, h404, h204]
    split <;> rfl
  rw [hrun]
  exact ⟨rfl, rfl⟩

/-- Closed instance of
`executeRequest_success_decode_failure_uses_error_sink` at a concrete 400
response. -/
theorem executeRequest_success_decode_failure_uses_error_sink_witness :
    (ExecuteRequest (.ok ⟨400⟩) (.ok "errorCode:E01") true
      (fun _ => some (GoError.msg "bad")) true
      (fun _ => some (GoError.msg "also bad"))).decodedVErr = true ∧
    (ExecuteRequest (.ok ⟨400⟩) (.ok "errorCode:E01") true
      (fun _ => some (GoError.msg "bad")) true
      (fun _ => some (GoError.msg "also bad"))).err =
      (if (400 : Nat) = 200 then some ErrPendingTransaction
       else some (GoError.msg "also bad")) :=
  executeRequest_success_decode_failure_uses_error_sink ⟨400⟩
    "errorCode:E01" (fun _ => some (GoError.msg "bad"))
    (fun _ => some (GoError.msg "also bad")) (GoError.msg "bad")
    (by decide) (by decide) rfl

/-- `marker` begins `s`, character-wise (an executable stand-in for
"the path starts with the environment marker"). -/
def strBeginsWith (s marker : String) : Bool :=
  marker.data.isPrefixOf s.data

/-- Claim C4: after `DirectDebitHostUseSandboxPrefix true` every one of the
seven endpoint variables begins with `/sandbox/v1/directdebit/`; after
`DirectDebitHostUseSandboxPrefix false` every one begins with
`/v1/rt-directdebit/`; and every facade operation invoked on the toggled
table sends a request whose path carries the matching environment marker. -/
theorem sandboxPrefixToggle_paths
    (p : Paths)
    (sign : String → String → String → String → String → String → String)
    (timestamp : String)
    (marshal : CardTokenOTPRequest → Except GoError String)
    (call : SentRequest → Option GoError)
    (g : CoreGateway) (token : String) (req : CardTokenOTPRequest) :
    (([(DirectDebitHostUseSandboxPrefix true p).urlCreateCardTokenOTP,
       (DirectDebitHostUseSandboxPrefix true p).urlCreateCardTokenOTPVerify,
       (DirectDebitHostUseSandboxPrefix true p).urlDeleteCardToken,
       (DirectDebitHostUseSandboxPrefix true p).urlCreatePaymentChargeOTP,
       (DirectDebitHostUseSandboxPrefix true p).urlCreatePaymentChargeOTPVerify,
       (DirectDebitHostUseSandboxPrefix true p).urlChargeDetail,
       (DirectDebitHostUseSandboxPrefix true p).urlRefundDirectDebit].all
        (fun s => strBeginsWith s "/sandbox/v1/directdebit/")) = true) ∧
    (([(DirectDebitHostUseSandboxPrefix false p).urlCreateCardTokenOTP,
       (DirectDebitHostUseSandboxPrefix false p).urlCreateCardTokenOTPVerify,
       (DirectDebitHostUseSandboxPrefix false p).urlDeleteCardToken,
       (DirectDebitHostUseSandboxPrefix false p).urlCreatePaymentChargeOTP,
       (DirectDebitHostUseSandboxPrefix false p).urlCreatePaymentChargeOTPVerify,
       (DirectDebitHostUseSandboxPrefix false p).urlChargeDetail,
       (DirectDebitHostUseSandboxPrefix false p).urlRefundDirectDebit].all
        (fun s => strBeginsWith s "/v1/rt-directdebit/")) = true) ∧
    strBeginsWith (CreateCardTokenOTP sign timestamp marshal call
      (DirectDebitHostUseSandboxPrefix true p) g token req).2.1.path
      "/sandbox/v1/directdebit/" = true ∧
    strBeginsWith (CreateCardTokenOTPVerify sign timestamp marshal call
      (DirectDebitHostUseSandboxPrefix true p) g token req).1.path
      "/sandbox/v1/directdebit/" = true ∧
    strBeginsWith (CreatePaymentChargeOTP sign timestamp marshal call
      (DirectDebitHostUseSandboxPrefix true p) g token req).1.path
      "/sandbox/v1/directdebit/" = true ∧
    strBeginsWith (CreatePaymentChargeOTPVerify sign timestamp marshal call
      (DirectDebitHostUseSandboxPrefix true p) g token req).1.path
      "/sandbox/v1/directdebit/" = true ∧
    strBeginsWith (CreateCardTokenOTP sign timestamp marshal call
      (DirectDebitHostUseSandboxPrefix false p) g token req).2.1.path
      "/v1/rt-directdebit/" = true ∧
    strBeginsWith (CreateCardTokenOTPVerify sign timestamp marshal call
      (DirectDebitHostUseSandboxPrefix false p) g token req).1.path
      "/v1/rt-directdebit/" = true ∧
    strBeginsWith (CreatePaymentChargeOTP sign timestamp marshal call
      (DirectDebitHostUseSandboxPrefix false p) g token req).1.path
      "/v1/rt-directdebit/" = true ∧
    strBeginsWith (CreatePaymentChargeOTPVerify sign timestamp marshal call
      (DirectDebitHostUseSandboxPrefix false p) g token req).1.path
      "/v1/rt-directdebit/" = true := by
  refine ⟨?_, ?_, ?_, ?_, ?_, ?_, ?_, ?_, ?_, ?_⟩ <;> rfl

/-- Claim C6: before any toggle, the facade endpoints are the `const`-block
values `/v1/directdebit/tokens`, `/v1/directdebit/charges`,
`/v1/directdebit/charges/verify`; none of them begins with the sandbox
marker `/sandbox/v1/directdebit/` or the production marker
`/v1/rt-directdebit/`; and an untoggled client sends each facade request
to exactly these paths — a third path set. -/
theorem initialPaths_thirdPathSet
    (deleteCardToken chargeDetail refundDirectDebit : String)
    (sign : String → String → String → String → String → String → String)
    (timestamp : String)
    (marshal : CardTokenOTPRequest → Except GoError String)
    (call : SentRequest → Option GoError)
    (g : CoreGateway) (token : String) (req : CardTokenOTPRequest) :
    urlCreateCardTokenOTP = "/v1/directdebit/tokens" ∧
    urlCreateCardTokenOTPVerify = "/v1/directdebit/tokens" ∧
    urlCreatePaymentChargeOTP = "/v1/directdebit/charges" ∧
    urlCreatePaymentChargeOTPVerify = "/v1/directdebit/charges/verify" ∧
    (([urlCreateCardTokenOTP, urlCreateCardTokenOTPVerify,
       urlCreatePaymentChargeOTP, urlCreatePaymentChargeOTPVerify].all
        (fun s => !(strBeginsWith s "/sandbox/v1/directdebit/") &&
                  !(strBeginsWith s "/v1/rt-directdebit/"))) = true) ∧
    (CreateCardTokenOTP sign timestamp marshal call
      (initPaths deleteCardToken chargeDetail refundDirectDebit)
      g token req).2.1.path = urlCreateCardTokenOTP ∧
    (CreateCardTokenOTPVerify sign timestamp marshal call
      (initPaths deleteCardToken chargeDetail refundDirectDebit)
      g token req).1.path = urlCreateCardTokenOTPVerify ∧
    (CreatePaymentChargeOTP sign timestamp marshal call
      (initPaths deleteCardToken chargeDetail refundDirectDebit)
      g token req).1.path = urlCreatePaymentChargeOTP ∧
    (CreatePaymentChargeOTPVerify sign timestamp marshal call
      (initPaths deleteCardToken chargeDetail refundDirectDebit)
      g token req).1.path = urlCreatePaymentChargeOTPVerify := by
  refine ⟨rfl, rfl, rfl, rfl, ?_, rfl, rfl, rfl, rfl⟩
  decide

/-- Claim C3: in every facade operation, the `BRI-Signature` header value
equals `generateSignature` applied to the endpoint path, the method, the
`Authorization` header value `"Bearer " ++ token`, the `BRI-Timestamp`
header value, the body, and the client secret — each argument being
exactly the value that goes out on the wire (read off the sent request
itself). -/
theorem signature_matches_wire_values
    (sign : String → String → String → String → String → String → String)
    (timestamp : String)
    (m1 : CardTokenOTPRequest → Except GoError String)
    {ρ₂ ρ₃ ρ₄ : Type}
    (m2 : ρ₂ → Except GoError String) (m3 : ρ₃ → Except GoError String)
    (m4 : ρ₄ → Except GoError String)
    (call : SentRequest → Option GoError)
    (paths : Paths) (g : CoreGateway) (token : String)
    (r1 : CardTokenOTPRequest) (r2 : ρ₂) (r3 : ρ₃) (r4 : ρ₄) :
    (CreateCardTokenOTP sign timestamp m1 call paths g token r1).2.1.headers =
      [("Authorization", "Bearer " ++ token),
       ("BRI-Timestamp", timestamp),
       ("BRI-Signature", sign
         (CreateCardTokenOTP sign timestamp m1 call paths g token r1).2.1.path
         (CreateCardTokenOTP sign timestamp m1 call paths g token r1).2.1.method
         ("Bearer " ++ token) timestamp
         (CreateCardTokenOTP sign timestamp m1 call paths g token r1).2.1.body
         g.Client.ClientSecret),
       ("Content-Type", "application/json")] ∧
    (CreateCardTokenOTPVerify sign timestamp m2 call paths g token r2).1.headers =
      [("Authorization", "Bearer " ++ token),
       ("BRI-Timestamp", timestamp),
       ("BRI-Signature", sign
         (CreateCardTokenOTPVerify sign timestamp m2 call paths g token r2).1.path
         (CreateCardTokenOTPVerify sign timestamp m2 call paths g token r2).1.method
         ("Bearer " ++ token) timestamp
         (CreateCardTokenOTPVerify sign timestamp m2 call paths g token r2).1.body
         g.Client.ClientSecret),
       ("Content-Type", "application/json")] ∧
    (CreatePaymentChargeOTP sign timestamp m3 call paths g token r3).1.headers =
      [("Authorization", "Bearer " ++ token),
       ("BRI-Timestamp", timestamp),
       ("BRI-Signature", sign
         (CreatePaymentChargeOTP sign timestamp m3 call paths g token r3).1.path
         (CreatePaymentChargeOTP sign timestamp m3 call paths g token r3).1.method
         ("Bearer " ++ token) timestamp
         (CreatePaymentChargeOTP sign timestamp m3 call paths g token r3).1.body
         g.Client.ClientSecret),
       ("Content-Type", "application/json")] ∧
    (CreatePaymentChargeOTPVerify sign timestamp m4 call paths g token r4).1.headers =
      [("Authorization", "Bearer " ++ token),
       ("BRI-Timestamp", timestamp),
       ("BRI-Signature", sign
         (CreatePaymentChargeOTPVerify sign timestamp m4 call paths g token r4).1.path
         (CreatePaymentChargeOTPVerify sign timestamp m4 call paths g token r4).1.method
         ("Bearer " ++ token) timestamp
         (CreatePaymentChargeOTPVerify sign timestamp m4 call paths g token r4).1.body
         g.Client.ClientSecret),
       ("Content-Type", "application/json")] :=
  ⟨rfl, rfl, rfl, rfl⟩

/-- Claim C8: every facade operation attaches exactly the four header keys
`Authorization`, `BRI-Timestamp`, `BRI-Signature`, `Content-Type`, and the
`Content-Type` value is always `application/json`. -/
theorem headers_exactly_four_keys
    (sign : String → String → String → String → String → String → String)
    (timestamp : String)
    (m1 : CardTokenOTPRequest → Except GoError String)
    {ρ₂ ρ₃ ρ₄ : Type}
    (m2 : ρ₂ → Except GoError String) (m3 : ρ₃ → Except GoError String)
    (m4 : ρ₄ → Except GoError String)
    (call : SentRequest → Option GoError)
    (paths : Paths) (g : CoreGateway) (token : String)
    (r1 : CardTokenOTPRequest) (r2 : ρ₂) (r3 : ρ₃) (r4 : ρ₄) :
    (CreateCardTokenOTP sign timestamp m1 call paths g token
        r1).2.1.headers.map Prod.fst =
      ["Authorization", "BRI-Timestamp", "BRI-Signature", "Content-Type"] ∧
    (CreateCardTokenOTP sign timestamp m1 call paths g token
        r1).2.1.headers.lookup "Content-Type" = some "application/json" ∧
    (CreateCardTokenOTPVerify sign timestamp m2 call paths g token
        r2).1.headers.map Prod.fst =
      ["Authorization", "BRI-Timestamp", "BRI-Signature", "Content-Type"] ∧
    (CreateCardTokenOTPVerify sign timestamp m2 call paths g token
        r2).1.headers.lookup "Content-Type" = some "application/json" ∧
    (CreatePaymentChargeOTP sign timestamp m3 call paths g token
        r3).1.headers.map Prod.fst =
      ["Authorization", "BRI-Timestamp", "BRI-Signature", "Content-Type"] ∧
    (CreatePaymentChargeOTP sign timestamp m3 call paths g token
        r3).1.headers.lookup "Content-Type" = some "application/json" ∧
    (CreatePaymentChargeOTPVerify sign timestamp m4 call paths g token
        r4).1.headers.map Prod.fst =
      ["Authorization", "BRI-Timestamp", "BRI-Signature", "Content-Type"] ∧
    (CreatePaymentChargeOTPVerify sign timestamp m4 call paths g token
        r4).1.headers.lookup "Content-Type" = some "application/json" :=
  ⟨rfl, rfl, rfl, rfl, rfl, rfl, rfl, rfl⟩

/-- Claim C9: `CreateCardTokenOTP` overwrites `req.Body.OtpBriStatus` with
"YES" before marshalling, so the record that is marshalled carries
`OtpBriStatus = "YES"` whatever the caller supplied, and the body signed
and sent is the marshalling of that overwritten record. -/
theorem createCardTokenOTP_forces_otpBriStatus
    (sign : String → String → String → String → String → String → String)
    (timestamp : String)
    (marshal : CardTokenOTPRequest → Except GoError String)
    (call : SentRequest → Option GoError)
    (paths : Paths) (g : CoreGateway)
    (token : String) (req : CardTokenOTPRequest) :
    (CreateCardTokenOTP sign timestamp marshal call paths g token req).1 =
      { req with Body := { req.Body with OtpBriStatus := "YES" } } ∧
    (CreateCardTokenOTP sign timestamp marshal call paths g token
        req).1.Body.OtpBriStatus = "YES" ∧
    (CreateCardTokenOTP sign timestamp marshal call paths g token
        req).2.1.body =
      (match marshal (CreateCardTokenOTP sign timestamp marshal call paths g
          token req).1 with
       | .ok s => s | .error _ => "") :=
  ⟨rfl, rfl, rfl⟩

/-- Claim C7: in every facade operation the `json.Marshal` error is
discarded — the returned error is whatever `g.Call` returns — and with a
failing marshal the operation still sends the request: the body is the
empty string and the signature is computed over that empty body. -/
theorem marshal_error_discarded
    (sign : String → String → String → String → String → String → String)
    (timestamp : String) (e : GoError)
    (call : SentRequest → Option GoError)
    (paths : Paths) (g : CoreGateway) (token : String)
    (r1 : CardTokenOTPRequest)
    {ρ₂ ρ₃ ρ₄ : Type} (r2 : ρ₂) (r3 : ρ₃) (r4 : ρ₄) :
    (CreateCardTokenOTP sign timestamp (fun _ => .error e) call paths g
        token r1).2.2 =
      call (CreateCardTokenOTP sign timestamp (fun _ => .error e) call
        paths g token r1).2.1 ∧
    (CreateCardTokenOTP sign timestamp (fun _ => .error e) call paths g
        token r1).2.1.body = "" ∧
    (CreateCardTokenOTP sign timestamp (fun _ => .error e) call paths g
        token r1).2.1.headers.lookup "BRI-Signature" =
      some (sign paths.urlCreateCardTokenOTP "POST" ("Bearer " ++ token)
        timestamp "" g.Client.ClientSecret) ∧
    (CreateCardTokenOTPVerify sign timestamp (fun _ => .error e) call
        paths g token r2).2 =
      call (CreateCardTokenOTPVerify sign timestamp (fun _ => .error e)
        call paths g token r2).1 ∧
    (CreateCardTokenOTPVerify sign timestamp (fun _ => .error e) call
        paths g token r2).1.body = "" ∧
    (CreateCardTokenOTPVerify sign timestamp (fun _ => .error e) call
        paths g token r2).1.headers.lookup "BRI-Signature" =
      some (sign paths.urlCreateCardTokenOTPVerify "PATCH"
        ("Bearer " ++ token) timestamp "" g.Client.ClientSecret) ∧
    (CreatePaymentChargeOTP sign timestamp (fun _ => .error e) call
        paths g token r3).2 =
      call (CreatePaymentChargeOTP sign timestamp (fun _ => .error e)
        call paths g token r3).1 ∧
    (CreatePaymentChargeOTP sign timestamp (fun _ => .error e) call
        paths g token r3).1.body = "" ∧
    (CreatePaymentChargeOTP sign timestamp (fun _ => .error e) call
        paths g token r3).1.headers.lookup "BRI-Signature" =
      some (sign paths.urlCreatePaymentChargeOTP "POST"
        ("Bearer " ++ token) timestamp "" g.Client.ClientSecret) ∧
    (CreatePaymentChargeOTPVerify sign timestamp (fun _ => .error e) call
        paths g token r4).2 =
      call (CreatePaymentChargeOTPVerify sign timestamp (fun _ => .error e)
        call paths g token r4).1 ∧
    (CreatePaymentChargeOTPVerify sign timestamp (fun _ => .error e) call
        paths g token r4).1.body = "" ∧
    (CreatePaymentChargeOTPVerify sign timestamp (fun _ => .error e) call
        paths g token r4).1.headers.lookup "BRI-Signature" =
      some (sign paths.urlCreatePaymentChargeOTPVerify "POST"
        ("Bearer " ++ token) timestamp "" g.Client.ClientSecret) :=
  ⟨rfl, rfl, rfl, rfl, rfl, rfl, rfl, rfl, rfl, rfl, rfl, rfl⟩

end Bri
